import Mathlib

/-
A shallow embedding of the omni.dynamic_texture_example extension
(exts/omni.dynamic_texture_example/omni/dynamic_texture_example/extension.py).

The host scene document (a pxr Usd.Stage) is modelled as an association list
from prim paths (strings, as built by the source's f-strings) to prim data.
Only the attributes this extension authors are modelled.  The host texture
provider (omni.ui.DynamicTextureProvider) is modelled as a record holding the
data passed to it.  The button handler is modelled as a total function over an
environment recording which host calls raise; a raised exception that the
handler does not catch is returned in the result instead of propagating.
-/

/-- The attributes of a single prim that this extension authors.  Fields are
`none` / `[]` when the corresponding attribute has not been authored. -/
structure Prim where
  primType : Option String := none
  points : Option (List (Int × Int × Int)) := none
  faceVertexCounts : Option (List Nat) := none
  faceVertexIndices : Option (List Nat) := none
  extent : Option (List (Int × Int × Int)) := none
  primvarSt : Option (List (Nat × Nat)) := none
  sourceAsset : Option (String × String) := none
  subIdentifier : Option (String × String) := none
  idAttr : Option String := none
  diffuse_texture : Option String := none
  surfaceOutput : Option (String × String) := none
  appliedAPIs : List String := []
  materialBinding : Option String := none
  kind : Option String := none
deriving DecidableEq

/-- A scene document: an association list from prim path to prim data. -/
abbrev Stage : Type := List (String × Prim)

/-- Look up the prim at a path. -/
def findPrim : Stage → String → Option Prim
  | [], _ => none
  | e :: rest, p => if e.1 = p then some e.2 else findPrim rest p

/-- Whether a prim exists at a path. -/
def hasPrim : Stage → String → Bool
  | [], _ => false
  | e :: rest, p => if e.1 = p then true else hasPrim rest p

/-- Replace the prim stored at a path (no effect on other entries). -/
def replacePrim : Stage → String → Prim → Stage
  | [], _, _ => []
  | e :: rest, p, pr => (if e.1 = p then (p, pr) else e) :: replacePrim rest p pr

/-- Store a prim at a path: replace it in place when present, else append. -/
def setPrim (s : Stage) (p : String) (pr : Prim) : Stage :=
  if hasPrim s p then replacePrim s p pr else s ++ [(p, pr)]

/-- Update the prim at a path with `f` (no effect when absent). -/
def modifyPrim : Stage → String → (Prim → Prim) → Stage
  | [], _, _ => []
  | e :: rest, p, f => (if e.1 = p then (e.1, f e.2) else e) :: modifyPrim rest p f

/-- The prim data a `Define` call starts from: the existing prim when present,
otherwise a fresh prim with nothing authored. -/
def defineBase (s : Stage) (p : String) : Prim :=
  match findPrim s p with
  | some pr => pr
  | none => {}

/-- `UsdGeom.Mesh.Define` / `UsdShade.Material.Define` / etc.: ensure a prim of
the given type exists at the path, keeping already-authored attributes. -/
def definePrim (s : Stage) (p : String) (ty : String) : Stage :=
  setPrim s p { defineBase s p with primType := some ty }

/-- Whether `p` is a prefix of `q`, character by character. -/
def strPrefix (p q : String) : Bool := p.data.isPrefixOf q.data

/-- Whether `q` lies in the subtree rooted at `root` (the root itself
included). -/
def underPath (root q : String) : Bool :=
  if q = root then true else strPrefix (root ++ ("/")) q

/-- `Usd.Stage.RemovePrim`: remove the prim at a path together with its
subtree. -/
def removeSubtree : Stage → String → Stage
  | [], _ => []
  | e :: rest, p => if underPath p e.1 then removeSubtree rest p else e :: removeSubtree rest p

/-- extension.py, create_textured_plane_prim: author a quad mesh at
`prim_path/Mesh`, a material at `prim_path/Material` and an OmniPBR shader at
`prim_path/Material/Shader` whose diffuse_texture input is the asset URI
`dynamic://<texture_name>`; connect the shader to the material and bind the
material to the mesh.  Returns the updated stage and the billboard path. -/
def create_textured_plane_prim (stage : Stage) (prim_path : String) (texture_name : String) :
    Stage × String :=
  let meshPath := prim_path ++ ("/Mesh")
  let s1 := definePrim stage meshPath ("Mesh")
  let s2 := modifyPrim s1 meshPath (fun pr =>
    { pr with points := some [(-430, -145, 0), (430, -145, 0), (430, 145, 0), (-430, 145, 0)] })
  let s3 := modifyPrim s2 meshPath (fun pr => { pr with faceVertexCounts := some [4] })
  let s4 := modifyPrim s3 meshPath (fun pr => { pr with faceVertexIndices := some [0, 1, 2, 3] })
  let s5 := modifyPrim s4 meshPath (fun pr =>
    { pr with extent := some [(-430, -145, 0), (430, 145, 0)] })
  let s6 := modifyPrim s5 meshPath (fun pr =>
    { pr with primvarSt := some [(0, 0), (1, 0), (1, 1), (0, 1)] })
  let material_path := prim_path ++ ("/Material")
  let s7 := definePrim s6 material_path ("Material")
  let shaderPath := material_path ++ ("/Shader")
  let s8 := definePrim s7 shaderPath ("Shader")
  let s9 := modifyPrim s8 shaderPath (fun pr =>
    { pr with sourceAsset := some (("OmniPBR.mdl"), ("mdl")) })
  let s10 := modifyPrim s9 shaderPath (fun pr =>
    { pr with subIdentifier := some (("OmniPBR"), ("mdl")) })
  let s11 := modifyPrim s10 shaderPath (fun pr => { pr with idAttr := some ("OmniPBR") })
  let s12 := modifyPrim s11 shaderPath (fun pr =>
    { pr with diffuse_texture := some (("dynamic://") ++ texture_name) })
  let s13 := modifyPrim s12 material_path (fun pr =>
    { pr with surfaceOutput := some (shaderPath, ("surface")) })
  let s14 := modifyPrim s13 meshPath (fun pr =>
    { pr with appliedAPIs := pr.appliedAPIs ++ [("MaterialBindingAPI")] })
  let s15 := modifyPrim s14 meshPath (fun pr => { pr with materialBinding := some material_path })
  (s15, meshPath)

/-- The omni.ui texture-format enumeration (only the variant this extension
uses, plus one other to keep the type non-degenerate). -/
inductive TextureFormat where
  | RGBA8_UNORM
  | BGRA8_UNORM
deriving DecidableEq

/-- The host dynamic-texture provider, modelled as a record of the data handed
to it. -/
structure DynamicTextureProvider where
  name : String
  bytesData : List Nat
  resolution : List Nat
  format : TextureFormat
deriving DecidableEq

/-- `ui.DynamicTextureProvider(texture_name)`: a fresh provider registered
under the given name, holding no pixel data yet. -/
def DynamicTextureProvider.new (texture_name : String) : DynamicTextureProvider :=
  { name := texture_name, bytesData := [], resolution := [],
    format := TextureFormat.RGBA8_UNORM }

/-- `ByteImageProvider.set_bytes_data`: store bytes, resolution and format on
the provider. -/
def DynamicTextureProvider.set_bytes_data (dtp : DynamicTextureProvider)
    (b : List Nat) (res : List Nat) (fmt : TextureFormat) : DynamicTextureProvider :=
  { dtp with bytesData := b, resolution := res, format := fmt }

/-- extension.py, create_dynamic_texture: construct a provider under
`texture_name` and hand it the bytes, resolution and format unchanged. -/
def create_dynamic_texture (texture_name : String) (b : List Nat)
    (resolution : Nat × Nat) (format : TextureFormat) : DynamicTextureProvider :=
  let bytes_list := b
  let dtp := DynamicTextureProvider.new texture_name
  dtp.set_bytes_data bytes_list [resolution.1, resolution.2] format

/-- The decoded image: `PIL.Image.open` followed by `convert` to RGBA yields a
width, a height and the raw RGBA bytes. -/
structure Image where
  width : Nat
  height : Nat
  rgbaBytes : List Nat
deriving DecidableEq

/-- Which host calls raise during one click, and what the image file decodes
to.  The try/except in the source contemplates `RemovePrim` raising, and image
open / convert and the provider upload are host calls that may raise. -/
structure Env where
  removeRaises : Bool
  openRaises : Bool
  decodeRaises : Bool
  uploadRaises : Bool
  image : Image
deriving DecidableEq

/-- The extension's only state: the optional stored texture handle
(`self._texture`). -/
structure ExtState where
  texture : Option DynamicTextureProvider
deriving DecidableEq

/-- The observable steps the click handler performs, in order. -/
inductive Event where
  | removeAttempt (path : String)
  | clearTexture
  | defineRoot (path : String)
  | setKind (path : String) (kind : String)
  | buildPlane (path : String) (textureName : String)
  | openImage (file : String)
  | convertRGBA
  | getResolution (w : Nat) (h : Nat)
  | uploadTexture (name : String) (len : Nat) (w : Nat) (h : Nat) (fmt : TextureFormat)
  | storeHandle
deriving DecidableEq

/-- An exception a host call raised and the handler did not catch. -/
inductive HostExn where
  | openError
  | decodeError
  | uploadError
deriving DecidableEq

/-- The result of one click: the stage, the extension state, the steps
performed, and the uncaught exception if one propagated. -/
structure ClickResult where
  stage : Stage
  ext : ExtState
  trace : List Event
  exn : Option HostExn

/-- extension.py, on_click_create: try removing the prim at /World/Thing and
clearing the stored handle (both inside one try, any failure swallowed);
define the root Xform with kind component; build the textured plane; open the
adjacent cat.jpg, convert it to RGBA, read its resolution; upload the bytes
under the same name and store the returned handle. -/
def on_click_create (env : Env) (st : ExtState) (stage : Stage) : ClickResult :=
  let name := ("Thing")
  let image_name := name
  let prim_path := ("/World/") ++ name
  let step1 :=
    if env.removeRaises then
      (stage, st.texture, [Event.removeAttempt prim_path])
    else
      (removeSubtree stage prim_path, (none : Option DynamicTextureProvider),
        [Event.removeAttempt prim_path, Event.clearTexture])
  let stage1 := step1.1
  let tex1 := step1.2.1
  let stage2 := modifyPrim (definePrim stage1 prim_path ("Xform")) prim_path
    (fun pr => { pr with kind := some ("component") })
  let stage3 := (create_textured_plane_prim stage2 prim_path image_name).1
  let tr2 := step1.2.2 ++ [Event.defineRoot prim_path,
    Event.setKind prim_path ("component"), Event.buildPlane prim_path image_name]
  if env.openRaises then
    { stage := stage3, ext := { texture := tex1 }, trace := tr2, exn := some HostExn.openError }
  else
    let tr3 := tr2 ++ [Event.openImage ("cat.jpg")]
    if env.decodeRaises then
      { stage := stage3, ext := { texture := tex1 }, trace := tr3,
        exn := some HostExn.decodeError }
    else
      let image_bytes := env.image.rgbaBytes
      let image_resolution := (env.image.width, env.image.height)
      let tr4 := tr3 ++ [Event.convertRGBA,
        Event.getResolution image_resolution.1 image_resolution.2]
      if env.uploadRaises then
        { stage := stage3, ext := { texture := tex1 }, trace := tr4,
          exn := some HostExn.uploadError }
      else
        let tex := create_dynamic_texture image_name image_bytes image_resolution
          TextureFormat.RGBA8_UNORM
        { stage := stage3, ext := { texture := some tex },
          trace := tr4 ++ [Event.uploadTexture image_name image_bytes.length
            image_resolution.1 image_resolution.2 TextureFormat.RGBA8_UNORM,
            Event.storeHandle],
          exn := none }

/-- extension.py, on_shutdown: clear the stored texture handle. -/
def on_shutdown (st : ExtState) : ExtState :=
  { st with texture := none }

/-- The fixed target path the handler uses (`"/World/" + name` with
`name = "Thing"`). -/
def thingPath : String := ("/World/") ++ ("Thing")

/-- The stage-mutating part of one click once the old subtree is gone: define
the root Xform with kind component at the target path, then build the plane. -/
def buildThing (s : Stage) : Stage :=
  (create_textured_plane_prim
    (modifyPrim (definePrim s thingPath ("Xform")) thingPath
      (fun pr => { pr with kind := some ("component") }))
    thingPath ("Thing")).1

/-- The entries of a stage lying in the subtree rooted at the target path. -/
def subtreeEntries : Stage → List (String × Prim)
  | [] => []
  | e :: rest => if underPath thingPath e.1 then e :: subtreeEntries rest else subtreeEntries rest

/-- Two strings with the same character data are equal. -/
theorem str_ext (a b : String) (h : a.data = b.data) : a = b := by
  cases a; cases b; exact congrArg String.mk h

/-- The character data of an appended string. -/
theorem str_data_append (a b : String) : (a ++ b).data = a.data ++ b.data := by
  cases a; cases b; rfl

/-- String append is associative. -/
theorem str_append_assoc (a b c : String) : (a ++ b) ++ c = a ++ (b ++ c) :=
  str_ext _ _ (by simp [str_data_append, List.append_assoc])

/-- String append cancels on the left. -/
theorem str_append_left_cancel (p a b : String) (h : p ++ a = p ++ b) : a = b := by
  apply str_ext
  have hd := congrArg String.data h
  rw [str_data_append, str_data_append] at hd
  exact List.append_cancel_left hd

/-- Appending different suffixes to the same string gives different strings. -/
theorem str_append_ne (p : String) {a b : String} (h : a ≠ b) : p ++ a ≠ p ++ b :=
  fun he => h (str_append_left_cancel p a b he)

/-- A string differs from itself with a non-empty suffix appended. -/
theorem str_ne_append (p q : String) (h : q ≠ ("")) : p ≠ p ++ q := by
  intro he
  apply h
  apply str_ext
  have hd := congrArg String.data he
  rw [str_data_append] at hd
  have hl := congrArg List.length hd
  rw [List.length_append] at hl
  have hq : q.data.length = 0 := by omega
  simpa using List.length_eq_zero.mp hq

/-- Replacing at a present key makes the lookup there return the new prim. -/
theorem findPrim_replacePrim_self (s : Stage) (p : String) (pr : Prim)
    (h : hasPrim s p = true) : findPrim (replacePrim s p pr) p = some pr := by
  induction s with
  | nil => simp [hasPrim] at h
  | cons e rest ih =>
    by_cases he : e.1 = p
    · simp [replacePrim, findPrim, he]
    · simp only [replacePrim, findPrim, if_neg he]
      exact ih (by simpa [hasPrim, he] using h)

/-- An absent key looks up to `none`. -/
theorem findPrim_of_hasPrim_false (s : Stage) (p : String)
    (h : hasPrim s p = false) : findPrim s p = none := by
  induction s with
  | nil => rfl
  | cons e rest ih =>
    by_cases he : e.1 = p
    · simp [hasPrim, he] at h
    · simp only [findPrim, if_neg he]
      exact ih (by simpa [hasPrim, he] using h)

/-- Lookups fall through a left part that does not hold the key. -/
theorem findPrim_append_left_none (s t : Stage) (p : String)
    (h : findPrim s p = none) : findPrim (s ++ t) p = findPrim t p := by
  induction s with
  | nil => rfl
  | cons e rest ih =>
    by_cases he : e.1 = p
    · simp [findPrim, he] at h
    · simp only [List.cons_append, findPrim, if_neg he] at h ⊢
      exact ih h

/-- Looking up the stored key after `setPrim` returns the stored prim. -/
theorem findPrim_setPrim_self (s : Stage) (p : String) (pr : Prim) :
    findPrim (setPrim s p pr) p = some pr := by
  unfold setPrim
  by_cases h : hasPrim s p = true
  · simp only [h, if_true]
    exact findPrim_replacePrim_self s p pr h
  · have hb : hasPrim s p = false := by simpa using h
    simp only [hb, Bool.false_eq_true, if_false]
    rw [findPrim_append_left_none _ _ _ (findPrim_of_hasPrim_false s p hb)]
    simp [findPrim]

/-- Replacing at one key leaves lookups at other keys unchanged. -/
theorem findPrim_replacePrim_ne {p q : String} (hq : q ≠ p) (s : Stage) (pr : Prim) :
    findPrim (replacePrim s p pr) q = findPrim s q := by
  have hp : ¬(p = q) := fun hh => hq hh.symm
  induction s with
  | nil => rfl
  | cons e rest ih =>
    by_cases he : e.1 = p
    · simp [replacePrim, findPrim, he, hp, ih]
    · by_cases heq : e.1 = q <;> simp [replacePrim, findPrim, he, heq, hq, ih]

/-- Appending a single other-keyed entry leaves a lookup unchanged. -/
theorem findPrim_append_single_ne {p q : String} (hq : q ≠ p) (s : Stage) (pr : Prim) :
    findPrim (s ++ [(p, pr)]) q = findPrim s q := by
  have hp : ¬(p = q) := fun hh => hq hh.symm
  induction s with
  | nil => simp [findPrim, hp]
  | cons e rest ih =>
    by_cases heq : e.1 = q <;> simp [findPrim, heq, ih]

/-- Storing at one key leaves lookups at other keys unchanged. -/
theorem findPrim_setPrim_ne {p q : String} (hq : q ≠ p) (s : Stage) (pr : Prim) :
    findPrim (setPrim s p pr) q = findPrim s q := by
  unfold setPrim
  by_cases h : hasPrim s p = true <;>
    simp [h, findPrim_replacePrim_ne hq, findPrim_append_single_ne hq]

/-- Updating at a key maps the lookup there through the update. -/
theorem findPrim_modifyPrim_self (s : Stage) (p : String) (f : Prim → Prim) :
    findPrim (modifyPrim s p f) p = (findPrim s p).map f := by
  induction s with
  | nil => rfl
  | cons e rest ih =>
    by_cases he : e.1 = p
    · simp [modifyPrim, findPrim, he]
    · simp [modifyPrim, findPrim, he, ih]

/-- Updating at one key leaves lookups at other keys unchanged. -/
theorem findPrim_modifyPrim_ne {p q : String} (hq : q ≠ p) (s : Stage) (f : Prim → Prim) :
    findPrim (modifyPrim s p f) q = findPrim s q := by
  induction s with
  | nil => rfl
  | cons e rest ih =>
    by_cases he : e.1 = p
    · have hp : ¬(p = q) := fun hh => hq hh.symm
      simp [modifyPrim, findPrim, he, hp, ih]
    · by_cases heq : e.1 = q <;> simp [modifyPrim, findPrim, he, heq, hq, ih]

/-- After a `Define`, the prim at the path keeps its prior attributes and has
the given type. -/
theorem findPrim_definePrim_self (s : Stage) (p ty : String) :
    findPrim (definePrim s p ty) p = some { defineBase s p with primType := some ty } :=
  findPrim_setPrim_self s p _

/-- A `Define` at one path leaves lookups at other paths unchanged. -/
theorem findPrim_definePrim_ne {p q : String} (hq : q ≠ p) (s : Stage) (ty : String) :
    findPrim (definePrim s p ty) q = findPrim s q :=
  findPrim_setPrim_ne hq s _

/-- After the build, the prim at `prim_path/Material/Shader` is an OmniPBR
shader whose diffuse_texture input is the `dynamic://` URI for the texture
name. -/
theorem shader_after_build (stage : Stage) (p n : String) :
    ∃ pr, findPrim (create_textured_plane_prim stage p n).1
        ((p ++ ("/Material")) ++ ("/Shader")) = some pr
      ∧ pr.primType = some ("Shader")
      ∧ pr.sourceAsset = some (("OmniPBR.mdl"), ("mdl"))
      ∧ pr.subIdentifier = some (("OmniPBR"), ("mdl"))
      ∧ pr.idAttr = some ("OmniPBR")
      ∧ pr.diffuse_texture = some (("dynamic://") ++ n) := by
  have hMesh : (p ++ ("/Material")) ++ ("/Shader") ≠ p ++ ("/Mesh") := by
    rw [str_append_assoc]
    exact str_append_ne p (by decide)
  have hMat : (p ++ ("/Material")) ++ ("/Shader") ≠ p ++ ("/Material") := by
    rw [str_append_assoc]
    exact str_append_ne p (by decide)
  simp only [create_textured_plane_prim]
  rw [findPrim_modifyPrim_ne hMesh, findPrim_modifyPrim_ne hMesh, findPrim_modifyPrim_ne hMat,
    findPrim_modifyPrim_self, findPrim_modifyPrim_self, findPrim_modifyPrim_self,
    findPrim_modifyPrim_self, findPrim_definePrim_self]
  simp only [Option.map_some']
  exact ⟨_, rfl, rfl, rfl, rfl, rfl, rfl⟩

/-- After the build, the prim at `prim_path/Mesh` is the quad mesh with the
fixed points, face layout, extent, UV primvar and material binding. -/
theorem mesh_after_build (stage : Stage) (p n : String) :
    ∃ pr, findPrim (create_textured_plane_prim stage p n).1 (p ++ ("/Mesh")) = some pr
      ∧ pr.primType = some ("Mesh")
      ∧ pr.points = some [(-430, -145, 0), (430, -145, 0), (430, 145, 0), (-430, 145, 0)]
      ∧ pr.faceVertexCounts = some [4]
      ∧ pr.faceVertexIndices = some [0, 1, 2, 3]
      ∧ pr.extent = some [(-430, -145, 0), (430, 145, 0)]
      ∧ pr.primvarSt = some [(0, 0), (1, 0), (1, 1), (0, 1)]
      ∧ pr.materialBinding = some (p ++ ("/Material")) := by
  have hMeshMat : p ++ ("/Mesh") ≠ p ++ ("/Material") := str_append_ne p (by decide)
  have hMeshShader : p ++ ("/Mesh") ≠ (p ++ ("/Material")) ++ ("/Shader") := by
    rw [str_append_assoc]
    exact str_append_ne p (by decide)
  simp only [create_textured_plane_prim]
  rw [findPrim_modifyPrim_self, findPrim_modifyPrim_self, findPrim_modifyPrim_ne hMeshMat,
    findPrim_modifyPrim_ne hMeshShader, findPrim_modifyPrim_ne hMeshShader,
    findPrim_modifyPrim_ne hMeshShader, findPrim_modifyPrim_ne hMeshShader,
    findPrim_definePrim_ne hMeshShader, findPrim_definePrim_ne hMeshMat,
    findPrim_modifyPrim_self, findPrim_modifyPrim_self, findPrim_modifyPrim_self,
    findPrim_modifyPrim_self, findPrim_modifyPrim_self, findPrim_definePrim_self]
  simp only [Option.map_some']
  exact ⟨_, rfl, rfl, rfl, rfl, rfl, rfl, rfl, rfl⟩

/-- After the build, the prim at `prim_path/Material` is a material whose
surface output is connected to the shader. -/
theorem material_after_build (stage : Stage) (p n : String) :
    ∃ pr, findPrim (create_textured_plane_prim stage p n).1 (p ++ ("/Material")) = some pr
      ∧ pr.primType = some ("Material")
      ∧ pr.surfaceOutput = some ((p ++ ("/Material")) ++ ("/Shader"), ("surface")) := by
  have hMatMesh : p ++ ("/Material") ≠ p ++ ("/Mesh") := str_append_ne p (by decide)
  have hMatShader : p ++ ("/Material") ≠ (p ++ ("/Material")) ++ ("/Shader") :=
    str_ne_append _ _ (by decide)
  simp only [create_textured_plane_prim]
  rw [findPrim_modifyPrim_ne hMatMesh, findPrim_modifyPrim_ne hMatMesh,
    findPrim_modifyPrim_self, findPrim_modifyPrim_ne hMatShader,
    findPrim_modifyPrim_ne hMatShader, findPrim_modifyPrim_ne hMatShader,
    findPrim_modifyPrim_ne hMatShader, findPrim_definePrim_ne hMatShader,
    findPrim_definePrim_self]
  simp only [Option.map_some']
  exact ⟨_, rfl, rfl, rfl⟩

/-- The build touches only the three prim paths it authors. -/
theorem build_untouched (stage : Stage) (p n q : String)
    (hq1 : q ≠ p ++ ("/Mesh")) (hq2 : q ≠ p ++ ("/Material"))
    (hq3 : q ≠ (p ++ ("/Material")) ++ ("/Shader")) :
    findPrim (create_textured_plane_prim stage p n).1 q = findPrim stage q := by
  simp only [create_textured_plane_prim]
  rw [findPrim_modifyPrim_ne hq1, findPrim_modifyPrim_ne hq1, findPrim_modifyPrim_ne hq2,
    findPrim_modifyPrim_ne hq3, findPrim_modifyPrim_ne hq3, findPrim_modifyPrim_ne hq3,
    findPrim_modifyPrim_ne hq3, findPrim_definePrim_ne hq3, findPrim_definePrim_ne hq2,
    findPrim_modifyPrim_ne hq1, findPrim_modifyPrim_ne hq1, findPrim_modifyPrim_ne hq1,
    findPrim_modifyPrim_ne hq1, findPrim_modifyPrim_ne hq1, findPrim_definePrim_ne hq1]

/-- Key presence distributes over append. -/
theorem hasPrim_append (s t : Stage) (p : String) :
    hasPrim (s ++ t) p = (hasPrim s p || hasPrim t p) := by
  induction s with
  | nil => simp [hasPrim]
  | cons e rest ih =>
    by_cases he : e.1 = p <;> simp [hasPrim, he, ih]

/-- Replacing an absent key changes nothing. -/
theorem replacePrim_of_hasPrim_false (s : Stage) (p : String) (pr : Prim)
    (h : hasPrim s p = false) : replacePrim s p pr = s := by
  induction s with
  | nil => rfl
  | cons e rest ih =>
    by_cases he : e.1 = p
    · simp [hasPrim, he] at h
    · simp only [replacePrim, if_neg he]
      rw [ih (by simpa [hasPrim, he] using h)]

/-- Replacement distributes over append. -/
theorem replacePrim_append (s t : Stage) (p : String) (pr : Prim) :
    replacePrim (s ++ t) p pr = replacePrim s p pr ++ replacePrim t p pr := by
  induction s with
  | nil => rfl
  | cons e rest ih => simp [replacePrim, ih]

/-- Updating an absent key changes nothing. -/
theorem modifyPrim_of_hasPrim_false (s : Stage) (p : String) (f : Prim → Prim)
    (h : hasPrim s p = false) : modifyPrim s p f = s := by
  induction s with
  | nil => rfl
  | cons e rest ih =>
    by_cases he : e.1 = p
    · simp [hasPrim, he] at h
    · simp only [modifyPrim, if_neg he]
      rw [ih (by simpa [hasPrim, he] using h)]

/-- Update distributes over append. -/
theorem modifyPrim_append (s t : Stage) (p : String) (f : Prim → Prim) :
    modifyPrim (s ++ t) p f = modifyPrim s p f ++ modifyPrim t p f := by
  induction s with
  | nil => rfl
  | cons e rest ih => simp [modifyPrim, ih]

/-- Updating a key absent from the left part acts on the right part only. -/
theorem modifyPrim_append_left (s t : Stage) (p : String) (f : Prim → Prim)
    (h : hasPrim s p = false) : modifyPrim (s ++ t) p f = s ++ modifyPrim t p f := by
  rw [modifyPrim_append, modifyPrim_of_hasPrim_false s p f h]

/-- Storing a key absent from the left part acts on the right part only. -/
theorem setPrim_append_left (s t : Stage) (p : String) (pr : Prim)
    (h : hasPrim s p = false) : setPrim (s ++ t) p pr = s ++ setPrim t p pr := by
  unfold setPrim
  rw [hasPrim_append, h]
  by_cases ht : hasPrim t p = true
  · simp only [ht, Bool.false_or, if_true]
    rw [replacePrim_append, replacePrim_of_hasPrim_false s p pr h]
  · have htb : hasPrim t p = false := by simpa using ht
    simp only [htb, Bool.false_or, Bool.false_eq_true, if_false]
    rw [List.append_assoc]

/-- Defining at a key absent from the left part acts on the right part only. -/
theorem definePrim_append_left (s t : Stage) (p ty : String)
    (h : hasPrim s p = false) : definePrim (s ++ t) p ty = s ++ definePrim t p ty := by
  unfold definePrim defineBase
  rw [findPrim_append_left_none _ _ _ (findPrim_of_hasPrim_false s p h),
    setPrim_append_left _ _ _ _ h]

/-- Subtree filtering distributes over append. -/
theorem subtreeEntries_append (s t : Stage) :
    subtreeEntries (s ++ t) = subtreeEntries s ++ subtreeEntries t := by
  induction s with
  | nil => rfl
  | cons e rest ih =>
    by_cases hu : underPath thingPath e.1 = true <;> simp [subtreeEntries, hu, ih]

/-- A stage with no prim under the target path has no subtree entries. -/
theorem subtreeEntries_eq_nil (s : Stage)
    (h : ∀ q, underPath thingPath q = true → hasPrim s q = false) :
    subtreeEntries s = [] := by
  induction s with
  | nil => rfl
  | cons e rest ih =>
    by_cases hu : underPath thingPath e.1 = true
    · exfalso
      have hc := h e.1 hu
      simp [hasPrim] at hc
    · simp only [subtreeEntries, hu, Bool.false_eq_true, if_false, if_neg hu]
      apply ih
      intro q hq
      have hc := h q hq
      by_cases he : e.1 = q
      · rw [show hasPrim (e :: rest) q = true by simp [hasPrim, he]] at hc
        cases hc
      · simpa [hasPrim, he] using hc

/-- After removing the target subtree, no prim under the target path is
present. -/
theorem hasPrim_removeSubtree (s : Stage) (q : String)
    (hq : underPath thingPath q = true) :
    hasPrim (removeSubtree s thingPath) q = false := by
  induction s with
  | nil => rfl
  | cons e rest ih =>
    by_cases hu : underPath thingPath e.1 = true
    · simpa [removeSubtree, hu] using ih
    · have he : ¬(e.1 = q) := by
        intro hh
        rw [hh, hq] at hu
        exact hu rfl
      simpa [removeSubtree, hu, hasPrim, he] using ih

/-- The root-plus-build pipeline only touches paths under the target path, so
on a stage whose left part holds nothing under it, it acts on the right part
only. -/
theorem buildThing_append (s t : Stage)
    (h : ∀ q, underPath thingPath q = true → hasPrim s q = false) :
    buildThing (s ++ t) = s ++ buildThing t := by
  have h0 := h thingPath (by decide)
  have h1 := h (thingPath ++ ("/Mesh")) (by decide)
  have h2 := h (thingPath ++ ("/Material")) (by decide)
  have h3 := h ((thingPath ++ ("/Material")) ++ ("/Shader")) (by decide)
  simp only [buildThing, create_textured_plane_prim]
  rw [definePrim_append_left _ _ _ _ h0, modifyPrim_append_left _ _ _ _ h0,
    definePrim_append_left _ _ _ _ h1,
    modifyPrim_append_left _ _ _ _ h1, modifyPrim_append_left _ _ _ _ h1,
    modifyPrim_append_left _ _ _ _ h1, modifyPrim_append_left _ _ _ _ h1,
    modifyPrim_append_left _ _ _ _ h1,
    definePrim_append_left _ _ _ _ h2, definePrim_append_left _ _ _ _ h3,
    modifyPrim_append_left _ _ _ _ h3, modifyPrim_append_left _ _ _ _ h3,
    modifyPrim_append_left _ _ _ _ h3, modifyPrim_append_left _ _ _ _ h3,
    modifyPrim_append_left _ _ _ _ h2,
    modifyPrim_append_left _ _ _ _ h1, modifyPrim_append_left _ _ _ _ h1]

/-- On a stage holding nothing under the target path, the click's stage
mutation produces exactly the subtree it would build on an empty stage. -/
theorem subtreeEntries_buildThing (s : Stage)
    (h : ∀ q, underPath thingPath q = true → hasPrim s q = false) :
    subtreeEntries (buildThing s) = buildThing [] := by
  have h1 : buildThing (s ++ []) = s ++ buildThing [] := buildThing_append s [] h
  rw [List.append_nil] at h1
  rw [h1, subtreeEntries_append, subtreeEntries_eq_nil s h, List.nil_append]
  rfl

/-- After one click's stage mutation, the subtree at the target path is the
fixed built subtree, whatever the starting stage held. -/
theorem subtreeEntries_click (s : Stage) :
    subtreeEntries (buildThing (removeSubtree s thingPath)) = buildThing [] :=
  subtreeEntries_buildThing _ (fun q hq => hasPrim_removeSubtree s q hq)

/-- When removal does not raise, the handler's stage result is exactly
remove-subtree followed by the root-plus-build pipeline. -/
theorem click_stage (env : Env) (st : ExtState) (stage : Stage)
    (h : env.removeRaises = false) :
    (on_click_create env st stage).stage = buildThing (removeSubtree stage thingPath) := by
  obtain ⟨rR, oR, dR, uR, img⟩ := env
  cases rR with
  | true => exact absurd h (by simp)
  | false =>
    cases oR <;> cases dR <;> cases uR <;>
      (dsimp only [on_click_create, buildThing]
       simp only [Bool.false_eq_true, if_true, if_false]
       rfl)

/-- The pipeline leaves the root prim at the target path an Xform of kind
component. -/
theorem buildThing_root (s : Stage) :
    ∃ pr, findPrim (buildThing s) thingPath = some pr
      ∧ pr.primType = some ("Xform") ∧ pr.kind = some ("component") := by
  have h1 : thingPath ≠ thingPath ++ ("/Mesh") := str_ne_append _ _ (by decide)
  have h2 : thingPath ≠ thingPath ++ ("/Material") := str_ne_append _ _ (by decide)
  have h3 : thingPath ≠ (thingPath ++ ("/Material")) ++ ("/Shader") := by
    rw [str_append_assoc]
    exact str_ne_append _ _ (by decide)
  simp only [buildThing]
  rw [build_untouched _ _ _ _ h1 h2 h3, findPrim_modifyPrim_self, findPrim_definePrim_self]
  simp only [Option.map_some']
  exact ⟨_, rfl, rfl, rfl⟩

/-- C1: for every stage, path and non-empty textureName, after
create_textured_plane_prim returns, the shader at path/Material/Shader has
its diffuse texture input asset set to exactly "dynamic://" ++ textureName. -/
theorem shader_diffuse_uri (stage : Stage) (path textureName : String)
    (hn : textureName ≠ ("")) :
    ∃ pr, findPrim (create_textured_plane_prim stage path textureName).1
        (path ++ ("/Material/Shader")) = some pr
      ∧ pr.diffuse_texture = some (("dynamic://") ++ textureName) := by
  have e : (path ++ ("/Material")) ++ ("/Shader") = path ++ ("/Material/Shader") := by
    rw [str_append_assoc]
    have e2 : ("/Material") ++ ("/Shader") = ("/Material/Shader") := by decide
    rw [e2]
  obtain ⟨pr, hfind, _, _, _, _, hdiff⟩ := shader_after_build stage path textureName
  rw [e] at hfind
  exact ⟨pr, hfind, hdiff⟩

/-- C1 witness: the property at the concrete input of the spec's scenario. -/
theorem shader_diffuse_uri_witness :
    (("Thing") : String) ≠ ("")
    ∧ ∃ pr, findPrim (create_textured_plane_prim [] ("/World/Thing") ("Thing")).1
        (("/World/Thing") ++ ("/Material/Shader")) = some pr
      ∧ pr.diffuse_texture = some (("dynamic://") ++ ("Thing")) :=
  ⟨by decide, shader_diffuse_uri [] ("/World/Thing") ("Thing") (by decide)⟩

/-- C2: building at /World/Thing with textureName "Thing" produces, on every
stage, a mesh at /World/Thing/Mesh whose points are exactly the four fixed
corners, whose face layout is one face of 4 vertices with indices [0,1,2,3],
and whose st primvar is exactly [(0,0),(1,0),(1,1),(0,1)]. -/
theorem mesh_concrete_scenario (stage : Stage) :
    ∃ pr, findPrim (create_textured_plane_prim stage ("/World/Thing") ("Thing")).1
        ("/World/Thing/Mesh") = some pr
      ∧ pr.primType = some ("Mesh")
      ∧ pr.points = some [(-430, -145, 0), (430, -145, 0), (430, 145, 0), (-430, 145, 0)]
      ∧ pr.faceVertexCounts = some [4]
      ∧ pr.faceVertexIndices = some [0, 1, 2, 3]
      ∧ pr.primvarSt = some [(0, 0), (1, 0), (1, 1), (0, 1)] := by
  have e : ("/World/Thing") ++ ("/Mesh") = ("/World/Thing/Mesh") := by decide
  obtain ⟨pr, hfind, hType, hPts, hCnt, hIdx, _, hSt, _⟩ :=
    mesh_after_build stage ("/World/Thing") ("Thing")
  rw [e] at hfind
  exact ⟨pr, hfind, hType, hPts, hCnt, hIdx, hSt⟩

/-- C6: on_shutdown sets the stored texture handle to None; being a total
function of the extension state it raises nothing, and this holds in
particular for the state any click leaves behind. -/
theorem shutdown_clears_handle (st : ExtState) (env : Env) (stage : Stage) :
    (on_shutdown st).texture = none
      ∧ (on_shutdown (on_click_create env st stage).ext).texture = none :=
  ⟨rfl, rfl⟩

/-- C7: create_dynamic_texture performs no validation of the byte count
against width*height*4: even on a mismatch, name, bytes, resolution and
format reach the provider unchanged. -/
theorem upload_no_validation (textureName : String) (b : List Nat)
    (res : Nat × Nat) (fmt : TextureFormat)
    (hmis : b.length ≠ res.1 * res.2 * 4) :
    (create_dynamic_texture textureName b res fmt).name = textureName
      ∧ (create_dynamic_texture textureName b res fmt).bytesData = b
      ∧ (create_dynamic_texture textureName b res fmt).resolution = [res.1, res.2]
      ∧ (create_dynamic_texture textureName b res fmt).format = fmt :=
  ⟨rfl, rfl, rfl, rfl⟩

/-- C7 witness: three bytes against a declared 2x2 RGBA image still pass
through unchanged. -/
theorem upload_no_validation_witness :
    (([0, 0, 0] : List Nat).length ≠ 2 * 2 * 4)
    ∧ ((create_dynamic_texture ("Thing") [0, 0, 0] ((2, 2)) TextureFormat.RGBA8_UNORM).name
        = ("Thing")
      ∧ (create_dynamic_texture ("Thing") [0, 0, 0] ((2, 2)) TextureFormat.RGBA8_UNORM).bytesData
        = [0, 0, 0]
      ∧ (create_dynamic_texture ("Thing") [0, 0, 0] ((2, 2)) TextureFormat.RGBA8_UNORM).resolution
        = [2, 2]
      ∧ (create_dynamic_texture ("Thing") [0, 0, 0] ((2, 2)) TextureFormat.RGBA8_UNORM).format
        = TextureFormat.RGBA8_UNORM) :=
  ⟨by decide, upload_no_validation ("Thing") [0, 0, 0] ((2, 2)) TextureFormat.RGBA8_UNORM
    (by decide)⟩

/-- The events of the removal step: the clear of the stored handle happens
only when `RemovePrim` did not raise, because it sits after it inside the
same try block. -/
def removalEvents (env : Env) : List Event :=
  if env.removeRaises then [Event.removeAttempt thingPath]
  else [Event.removeAttempt thingPath, Event.clearTexture]

/-- The events of the image part of a click, cut short at the first raising
host call. -/
def imageEvents (env : Env) : List Event :=
  if env.openRaises then []
  else [Event.openImage ("cat.jpg")]
    ++ (if env.decodeRaises then []
      else [Event.convertRGBA, Event.getResolution env.image.width env.image.height]
        ++ (if env.uploadRaises then []
          else [Event.uploadTexture ("Thing") env.image.rgbaBytes.length
              env.image.width env.image.height TextureFormat.RGBA8_UNORM,
            Event.storeHandle]))

/-- Every click's trace is the removal events, then root define, kind set and
plane build, then the image events. -/
theorem click_trace_eq (env : Env) (st : ExtState) (stage : Stage) :
    (on_click_create env st stage).trace
      = removalEvents env ++ (Event.defineRoot thingPath
        :: Event.setKind thingPath ("component")
        :: Event.buildPlane thingPath ("Thing") :: imageEvents env) := by
  obtain ⟨rR, oR, dR, uR, img⟩ := env
  cases rR <;> cases oR <;> cases dR <;> cases uR <;>
    (dsimp only [on_click_create, removalEvents, imageEvents]
     simp [thingPath, Bool.false_eq_true, if_true, if_false, List.append_assoc])

/-- Every click's resulting stage is the root-plus-build pipeline applied to
the stage the removal step left (unchanged if removal raised). -/
theorem click_stage_any (env : Env) (st : ExtState) (stage : Stage) :
    (on_click_create env st stage).stage
      = buildThing (if env.removeRaises then stage else removeSubtree stage thingPath) := by
  obtain ⟨rR, oR, dR, uR, img⟩ := env
  cases rR <;> cases oR <;> cases dR <;> cases uR <;>
    (dsimp only [on_click_create, buildThing]
     simp only [Bool.false_eq_true, if_true, if_false]
     rfl)

/-- The pipeline puts a Mesh prim at the /Mesh child path. -/
theorem buildThing_mesh (s : Stage) :
    ∃ pr, findPrim (buildThing s) (thingPath ++ ("/Mesh")) = some pr
      ∧ pr.primType = some ("Mesh") := by
  obtain ⟨pr, hfind, hType, _, _, _, _, _, _⟩ :=
    mesh_after_build (modifyPrim (definePrim s thingPath ("Xform")) thingPath
      (fun pr => { pr with kind := some ("component") })) thingPath ("Thing")
  exact ⟨pr, hfind, hType⟩

/-- The pipeline puts a Material prim at the /Material child path. -/
theorem buildThing_material (s : Stage) :
    ∃ pr, findPrim (buildThing s) (thingPath ++ ("/Material")) = some pr
      ∧ pr.primType = some ("Material") := by
  obtain ⟨pr, hfind, hType, _⟩ :=
    material_after_build (modifyPrim (definePrim s thingPath ("Xform")) thingPath
      (fun pr => { pr with kind := some ("component") })) thingPath ("Thing")
  exact ⟨pr, hfind, hType⟩

/-- The pipeline puts a Shader prim at the /Material/Shader child path. -/
theorem buildThing_shader (s : Stage) :
    ∃ pr, findPrim (buildThing s) ((thingPath ++ ("/Material")) ++ ("/Shader")) = some pr
      ∧ pr.primType = some ("Shader") := by
  obtain ⟨pr, hfind, hType, _, _, _, _⟩ :=
    shader_after_build (modifyPrim (definePrim s thingPath ("Xform")) thingPath
      (fun pr => { pr with kind := some ("component") })) thingPath ("Thing")
  exact ⟨pr, hfind, hType⟩

/-- C10: every execution of the click handler defines an Xform root prim at
the target path and sets its model kind to component immediately before
building the plane, and the mesh, material and shader are created at the
child paths /Mesh, /Material and /Material/Shader, not at the target path
itself. -/
theorem root_xform_before_build (env : Env) (st : ExtState) (stage : Stage) :
    (∃ pre post, (on_click_create env st stage).trace
        = pre ++ (Event.defineRoot thingPath
          :: Event.setKind thingPath ("component")
          :: Event.buildPlane thingPath ("Thing") :: post))
    ∧ (∃ pr, findPrim (on_click_create env st stage).stage ("/World/Thing") = some pr
        ∧ pr.primType = some ("Xform") ∧ pr.kind = some ("component"))
    ∧ (∃ pr, findPrim (on_click_create env st stage).stage ("/World/Thing/Mesh") = some pr
        ∧ pr.primType = some ("Mesh"))
    ∧ (∃ pr, findPrim (on_click_create env st stage).stage ("/World/Thing/Material") = some pr
        ∧ pr.primType = some ("Material"))
    ∧ (∃ pr, findPrim (on_click_create env st stage).stage ("/World/Thing/Material/Shader")
          = some pr
        ∧ pr.primType = some ("Shader")) := by
  have e0 : thingPath = ("/World/Thing") := by decide
  have e1 : thingPath ++ ("/Mesh") = ("/World/Thing/Mesh") := by decide
  have e2 : thingPath ++ ("/Material") = ("/World/Thing/Material") := by decide
  have e3 : (thingPath ++ ("/Material")) ++ ("/Shader") = ("/World/Thing/Material/Shader") := by
    decide
  refine ⟨⟨removalEvents env, imageEvents env, click_trace_eq env st stage⟩, ?_, ?_, ?_, ?_⟩ <;>
    rw [click_stage_any env st stage]
  · rw [← e0]
    exact buildThing_root _
  · rw [← e1]
    exact buildThing_mesh _
  · rw [← e2]
    exact buildThing_material _
  · rw [← e3]
    exact buildThing_shader _

/-- A concrete 1x1 RGBA image for concrete runs. -/
def img1 : Image := { width := 1, height := 1, rgbaBytes := [10, 20, 30, 255] }

/-- A click environment in which every host call succeeds. -/
def envOk : Env :=
  { removeRaises := false, openRaises := false, decodeRaises := false,
    uploadRaises := false, image := img1 }

/-- A click environment in which only the RemovePrim call raises. -/
def envRemoveRaise : Env := { envOk with removeRaises := true }

/-- A click environment in which RemovePrim raises and the image open then
raises as well. -/
def envRemoveAndOpenRaise : Env := { envOk with removeRaises := true, openRaises := true }

/-- A click environment in which only the image open raises. -/
def envOpenRaise : Env := { envOk with openRaises := true }

/-- An extension state with no stored handle. -/
def extEmpty : ExtState := { texture := none }

/-- An extension state still holding a handle from an earlier build. -/
def extWithHandle : ExtState := { texture := some (DynamicTextureProvider.new ("Old")) }

/-- On a fully successful click the handler returns normally and stores the
uploaded provider. -/
theorem click_success_state (env : Env) (st : ExtState) (stage : Stage)
    (hr : env.removeRaises = false) (ho : env.openRaises = false)
    (hd : env.decodeRaises = false) (hu : env.uploadRaises = false) :
    (on_click_create env st stage).exn = none
    ∧ (on_click_create env st stage).ext.texture
      = some (create_dynamic_texture ("Thing") env.image.rgbaBytes
          (env.image.width, env.image.height) TextureFormat.RGBA8_UNORM) := by
  obtain ⟨rR, oR, dR, uR, img⟩ := env
  cases rR <;> cases oR <;> cases dR <;> cases uR <;> simp_all [on_click_create]

/-- C3 (amended): on every click where removal, image load, decode and upload
all succeed, the handler performs exactly, in this order: removal attempt,
clear of the stored handle, root define, kind set, plane build, image open,
RGBA decode, resolution read, upload of the bytes, store of the returned
handle; it returns normally and stores the uploaded provider.  When the
removal raises, the clear step is skipped, because the assignment sits after
RemovePrim inside the same try block — see the counterexample. -/
theorem click_trace_order (env : Env) (st : ExtState) (stage : Stage)
    (hr : env.removeRaises = false) (ho : env.openRaises = false)
    (hd : env.decodeRaises = false) (hu : env.uploadRaises = false) :
    (on_click_create env st stage).trace
      = [Event.removeAttempt thingPath, Event.clearTexture,
        Event.defineRoot thingPath, Event.setKind thingPath ("component"),
        Event.buildPlane thingPath ("Thing"), Event.openImage ("cat.jpg"),
        Event.convertRGBA, Event.getResolution env.image.width env.image.height,
        Event.uploadTexture ("Thing") env.image.rgbaBytes.length env.image.width
          env.image.height TextureFormat.RGBA8_UNORM, Event.storeHandle]
    ∧ (on_click_create env st stage).exn = none
    ∧ (on_click_create env st stage).ext.texture
      = some (create_dynamic_texture ("Thing") env.image.rgbaBytes
          (env.image.width, env.image.height) TextureFormat.RGBA8_UNORM) := by
  refine ⟨?_, click_success_state env st stage hr ho hd hu⟩
  rw [click_trace_eq env st stage]
  simp [removalEvents, imageEvents, hr, ho, hd, hu]

/-- C3 witness: the successful click at the concrete fixtures. -/
theorem click_trace_order_witness :
    envOk.removeRaises = false ∧ envOk.openRaises = false ∧ envOk.decodeRaises = false
    ∧ envOk.uploadRaises = false
    ∧ ((on_click_create envOk extEmpty []).trace
        = [Event.removeAttempt thingPath, Event.clearTexture,
          Event.defineRoot thingPath, Event.setKind thingPath ("component"),
          Event.buildPlane thingPath ("Thing"), Event.openImage ("cat.jpg"),
          Event.convertRGBA, Event.getResolution envOk.image.width envOk.image.height,
          Event.uploadTexture ("Thing") envOk.image.rgbaBytes.length envOk.image.width
            envOk.image.height TextureFormat.RGBA8_UNORM, Event.storeHandle]
      ∧ (on_click_create envOk extEmpty []).exn = none
      ∧ (on_click_create envOk extEmpty []).ext.texture
        = some (create_dynamic_texture ("Thing") envOk.image.rgbaBytes
            (envOk.image.width, envOk.image.height) TextureFormat.RGBA8_UNORM)) :=
  ⟨rfl, rfl, rfl, rfl, click_trace_order envOk extEmpty [] rfl rfl rfl rfl⟩

/-- C3 counterexample: a click on which RemovePrim raises (the failure is
swallowed) and every later step succeeds completes normally, yet the
handle-clear step never happens, refuting the claim that every click clears
the stored texture handle after the removal attempt. -/
theorem click_trace_counterexample :
    (on_click_create envRemoveRaise extWithHandle []).exn = none
    ∧ Event.clearTexture ∉ (on_click_create envRemoveRaise extWithHandle []).trace := by
  decide

/-- C5: whatever the stage holds — in particular when nothing is at the
target path — and whether or not the RemovePrim call raises, the removal
step never propagates an exception: when the later image steps succeed the
click returns normally, and the rebuild is performed in every case. -/
theorem removal_swallowed (env : Env) (st : ExtState) (stage : Stage)
    (ho : env.openRaises = false) (hd : env.decodeRaises = false)
    (hu : env.uploadRaises = false) :
    (on_click_create env st stage).exn = none
    ∧ Event.buildPlane thingPath ("Thing") ∈ (on_click_create env st stage).trace := by
  constructor
  · obtain ⟨rR, oR, dR, uR, img⟩ := env
    cases rR <;> cases oR <;> cases dR <;> cases uR <;> simp_all [on_click_create]
  · rw [click_trace_eq env st stage]
    simp

/-- C5 witness: a raising removal on an empty stage is swallowed and the
click still succeeds and rebuilds. -/
theorem removal_swallowed_witness :
    envRemoveRaise.openRaises = false ∧ envRemoveRaise.decodeRaises = false
    ∧ envRemoveRaise.uploadRaises = false
    ∧ ((on_click_create envRemoveRaise extWithHandle []).exn = none
      ∧ Event.buildPlane thingPath ("Thing")
        ∈ (on_click_create envRemoveRaise extWithHandle []).trace) :=
  ⟨rfl, rfl, rfl, removal_swallowed envRemoveRaise extWithHandle [] rfl rfl rfl⟩

/-- C4: on every click, the texture name handed to the plane builder equals
the name under which the dynamic texture is uploaded. -/
theorem build_upload_name_agree (env : Env) (st : ExtState) (stage : Stage)
    {p n1 n2 : String} {len w h : Nat} {fmt : TextureFormat}
    (hb : Event.buildPlane p n1 ∈ (on_click_create env st stage).trace)
    (hu : Event.uploadTexture n2 len w h fmt ∈ (on_click_create env st stage).trace) :
    n1 = n2 := by
  rw [click_trace_eq env st stage] at hb hu
  obtain ⟨rR, oR, dR, uR, img⟩ := env
  cases rR <;> cases oR <;> cases dR <;> cases uR <;>
    simp_all [removalEvents, imageEvents]

/-- C4 witness: on the concrete successful click both events occur and the
names coincide. -/
theorem build_upload_name_agree_witness :
    (Event.buildPlane thingPath ("Thing") ∈ (on_click_create envOk extEmpty []).trace)
    ∧ (Event.uploadTexture ("Thing") 4 1 1 TextureFormat.RGBA8_UNORM
        ∈ (on_click_create envOk extEmpty []).trace)
    ∧ (("Thing") : String) = ("Thing") :=
  ⟨by decide, by decide,
    @build_upload_name_agree envOk extEmpty [] thingPath ("Thing") ("Thing") 4 1 1
      TextureFormat.RGBA8_UNORM (by decide) (by decide)⟩

/-- C9 (amended): on every click where the removal step did not raise and
the image open, decode or upload raises, the handler catches nothing — the
exception propagates to the caller — and the stored texture handle is left
None.  When the removal step also raised, the handle instead keeps its
previous value, since the clear inside the try was skipped — see the
counterexample. -/
theorem failure_leaves_handle_none (env : Env) (st : ExtState) (stage : Stage)
    (hr : env.removeRaises = false)
    (hf : env.openRaises = true ∨ env.decodeRaises = true ∨ env.uploadRaises = true) :
    ((on_click_create env st stage).exn).isSome = true
    ∧ (on_click_create env st stage).ext.texture = none := by
  obtain ⟨rR, oR, dR, uR, img⟩ := env
  cases rR <;> cases oR <;> cases dR <;> cases uR <;> simp_all [on_click_create]

/-- C9 witness: a failing image open propagates and leaves the handle None
when removal succeeded. -/
theorem failure_leaves_handle_none_witness :
    envOpenRaise.removeRaises = false
    ∧ (envOpenRaise.openRaises = true ∨ envOpenRaise.decodeRaises = true
        ∨ envOpenRaise.uploadRaises = true)
    ∧ (((on_click_create envOpenRaise extWithHandle []).exn).isSome = true
      ∧ (on_click_create envOpenRaise extWithHandle []).ext.texture = none) :=
  ⟨rfl, Or.inl rfl,
    failure_leaves_handle_none envOpenRaise extWithHandle [] rfl (Or.inl rfl)⟩

/-- C9 counterexample: when RemovePrim raises (swallowed) and the image open
then raises, the exception propagates but the stored handle still holds the
previous texture, not None. -/
theorem failure_handle_counterexample :
    ((on_click_create envRemoveAndOpenRaise extWithHandle []).exn).isSome = true
    ∧ (on_click_create envRemoveAndOpenRaise extWithHandle []).ext.texture ≠ none := by
  decide

/-- C8: clicking twice in succession on the same stage (with the removal step
succeeding) leaves exactly the one built subtree at the target path — the
same four prims, in the same order, as after a single click: no duplicates
accumulate. -/
theorem click_twice_single_subtree (env1 env2 : Env) (st : ExtState) (stage : Stage)
    (h1 : env1.removeRaises = false) (h2 : env2.removeRaises = false) :
    subtreeEntries (on_click_create env2 (on_click_create env1 st stage).ext
        (on_click_create env1 st stage).stage).stage
      = subtreeEntries (on_click_create env1 st stage).stage
    ∧ (subtreeEntries (on_click_create env1 st stage).stage).map Prod.fst
      = [("/World/Thing"), ("/World/Thing/Mesh"), ("/World/Thing/Material"),
        ("/World/Thing/Material/Shader")] := by
  rw [click_stage env2 _ _ h2, click_stage env1 st stage h1,
    subtreeEntries_click, subtreeEntries_click]
  exact ⟨rfl, by decide⟩

/-- C8 witness: two successful clicks from the empty stage. -/
theorem click_twice_single_subtree_witness :
    envOk.removeRaises = false
    ∧ (subtreeEntries (on_click_create envOk (on_click_create envOk extEmpty []).ext
          (on_click_create envOk extEmpty []).stage).stage
        = subtreeEntries (on_click_create envOk extEmpty []).stage
      ∧ (subtreeEntries (on_click_create envOk extEmpty []).stage).map Prod.fst
        = [("/World/Thing"), ("/World/Thing/Mesh"), ("/World/Thing/Material"),
          ("/World/Thing/Material/Shader")]) :=
  ⟨rfl, click_twice_single_subtree envOk envOk extEmpty [] rfl rfl⟩
